import Mathlib

/-!
Verification development for the ReKotlin_FrontEnd client application.

This file shallowly embeds the client-side session & route-authorization core:
- the Session Store (`src/AuthContext.jsx`: the restore-on-mount effect,
  `login`, `logout`, `ehProfessor`, `ehAcademico`),
- the Navigation Guard (`src/roteamento/RotasApp.jsx`: `RotaProtegida`),
- the page controllers relevant to role gating and error handling
  (`FormularioTurma`, `ListaTurmas.carregarTurmas`, `Login.handleSubmit`).

JavaScript runtime values stored in React state and in the localStorage slot
are modelled by the inductive type `JSValue`; the platform built-ins
`JSON.parse` / `JSON.stringify` are modelled by executable functions
`jsonParse` / `stringifyVal` (numbers are modelled as integers and string
escape handling is minimal, since no property proved here inspects
fractional numerics or escape sequences).
-/

/-- A JavaScript value as it can appear in React state or be produced by
JSON.parse. `null` doubles as the JS null; `undefined` never appears in
parsed JSON and absent object properties are modelled by `Option`. -/
inductive JSValue where
  | null : JSValue
  | bool : Bool → JSValue
  | num : Int → JSValue
  | str : String → JSValue
  | arr : List JSValue → JSValue
  | obj : List (String × JSValue) → JSValue
deriving Repr

/-- Left brace character, written via its code point. -/
def lbraceCh : Char := Char.ofNat 123

/-- Right brace character, written via its code point. -/
def rbraceCh : Char := Char.ofNat 125

/-- Left bracket character. -/
def lbrackCh : Char := Char.ofNat 91

/-- Right bracket character. -/
def rbrackCh : Char := Char.ofNat 93

/-- Double-quote character. -/
def dquoteCh : Char := Char.ofNat 34

/-- Backslash character. -/
def bslashCh : Char := Char.ofNat 92

/-- JavaScript truthiness of a value (used by `if (usuarioSalvo)`,
`if (!usuario)` and the optional-chaining guards in the source). NaN is not
representable in the integer model of numbers. -/
def truthy : JSValue → Bool
  | .null => false
  | .bool b => b
  | .num n => n != 0
  | .str s => s != ""
  | .arr _ => true
  | .obj _ => true

/-- Property access `v.k` on a JS value: defined (some) only when `v` is an
object with the field; every other access used by the source yields
undefined (none). Optional chaining `v?.k` on null also yields none. -/
def getField (v : JSValue) (k : String) : Option JSValue :=
  match v with
  | .obj fs => fs.lookup k
  | _ => none

mutual

/-- Model of `JSON.stringify` on a JS value (no escaping inside string
values; no claim proved here inspects the serialized blob's characters). -/
def stringifyVal : JSValue → String
  | .null => "null"
  | .bool true => "true"
  | .bool false => "false"
  | .num n => toString n
  | .str s => dquoteCh.toString ++ s ++ dquoteCh.toString
  | .arr xs => lbrackCh.toString ++ stringifyElems xs ++ rbrackCh.toString
  | .obj fs => lbraceCh.toString ++ stringifyFields fs ++ rbraceCh.toString

/-- Comma-separated serialization of array elements. -/
def stringifyElems : List JSValue → String
  | [] => ""
  | [v] => stringifyVal v
  | v :: vs => stringifyVal v ++ "," ++ stringifyElems vs

/-- Comma-separated serialization of object fields. -/
def stringifyFields : List (String × JSValue) → String
  | [] => ""
  | [(k, v)] => dquoteCh.toString ++ k ++ dquoteCh.toString ++ ":" ++ stringifyVal v
  | (k, v) :: fs =>
      dquoteCh.toString ++ k ++ dquoteCh.toString ++ ":" ++ stringifyVal v ++ ","
        ++ stringifyFields fs

end

/-- Drop leading JSON whitespace. -/
def skipWs (cs : List Char) : List Char :=
  cs.dropWhile (fun c => c == ' ' || c == '\t' || c == '\n' || c == '\r')

/-- Map an escaped character to the character it denotes ("n" and "t" to
control characters, anything else to itself, which covers quote, backslash
and slash). -/
def unescapeCh (c : Char) : Char :=
  if c == 'n' then Char.ofNat 10
  else if c == 't' then Char.ofNat 9
  else c

/-- Parse the body of a JSON string after the opening quote, accumulating
characters until the closing quote. -/
def parseStrBody : List Char → List Char → Option (String × List Char)
  | _, [] => none
  | acc, c :: cs =>
    if c == dquoteCh then some (String.mk acc.reverse, cs)
    else if c == bslashCh then
      match cs with
      | [] => none
      | e :: cs2 => parseStrBody (unescapeCh e :: acc) cs2
    else parseStrBody (c :: acc) cs

/-- Consume leading decimal digits, returning their value and the rest. -/
def parseDigits : Nat → List Char → Nat × List Char
  | acc, c :: cs =>
    if c.isDigit then parseDigits (acc * 10 + (c.toNat - 48)) cs
    else (acc, c :: cs)
  | acc, [] => (acc, [])

/-- Match an exact sequence of characters (a JSON keyword) at the head of
the input. -/
def stripKeyword : List Char → List Char → Option (List Char)
  | [], rest => some rest
  | k :: ks, c :: rest => if c == k then stripKeyword ks rest else none
  | _ :: _, [] => none

mutual

/-- Fueled recursive-descent model of `JSON.parse` for one value.
Returns the parsed value and the unconsumed input, or none where the real
JSON.parse would throw a SyntaxError. Numeric literals are modelled as
(optionally negated) integers. -/
def parseValue : Nat → List Char → Option (JSValue × List Char)
  | 0, _ => none
  | Nat.succ fuel, cs =>
    match skipWs cs with
    | [] => none
    | c :: rest =>
      if c == dquoteCh then
        match parseStrBody [] rest with
        | some (s, r) => some (JSValue.str s, r)
        | none => none
      else if c == lbraceCh then
        match skipWs rest with
        | c2 :: r2 =>
          if c2 == rbraceCh then some (JSValue.obj [], r2)
          else parseFields fuel (c2 :: r2) []
        | [] => none
      else if c == lbrackCh then
        match skipWs rest with
        | c2 :: r2 =>
          if c2 == rbrackCh then some (JSValue.arr [], r2)
          else parseElems fuel (c2 :: r2) []
        | [] => none
      else if c == '-' then
        match rest with
        | d :: _ =>
          if d.isDigit then
            let (n, r) := parseDigits 0 rest
            some (JSValue.num (-(Int.ofNat n)), r)
          else none
        | [] => none
      else if c.isDigit then
        let (n, r) := parseDigits 0 (c :: rest)
        some (JSValue.num (Int.ofNat n), r)
      else if c == 'n' then
        match stripKeyword ['u', 'l', 'l'] rest with
        | some r => some (JSValue.null, r)
        | none => none
      else if c == 't' then
        match stripKeyword ['r', 'u', 'e'] rest with
        | some r => some (JSValue.bool true, r)
        | none => none
      else if c == 'f' then
        match stripKeyword ['a', 'l', 's', 'e'] rest with
        | some r => some (JSValue.bool false, r)
        | none => none
      else none

/-- Parse the remaining elements of a non-empty JSON array. -/
def parseElems : Nat → List Char → List JSValue → Option (JSValue × List Char)
  | 0, _, _ => none
  | Nat.succ fuel, cs, acc =>
    match parseValue fuel cs with
    | none => none
    | some (v, r) =>
      match skipWs r with
      | c :: r2 =>
        if c == ',' then parseElems fuel r2 (v :: acc)
        else if c == rbrackCh then some (JSValue.arr (v :: acc).reverse, r2)
        else none
      | [] => none

/-- Parse the remaining fields of a non-empty JSON object. -/
def parseFields : Nat → List Char → List (String × JSValue) →
    Option (JSValue × List Char)
  | 0, _, _ => none
  | Nat.succ fuel, cs, acc =>
    match cs with
    | c :: rest =>
      if c == dquoteCh then
        match parseStrBody [] rest with
        | none => none
        | some (k, r) =>
          match skipWs r with
          | c2 :: r2 =>
            if c2 == ':' then
              match parseValue fuel r2 with
              | none => none
              | some (v, r3) =>
                match skipWs r3 with
                | c3 :: r4 =>
                  if c3 == ',' then parseFields fuel (skipWs r4) ((k, v) :: acc)
                  else if c3 == rbraceCh then
                    some (JSValue.obj ((k, v) :: acc).reverse, r4)
                  else none
                | [] => none
            else none
          | [] => none
      else none
    | [] => none

end

/-- Model of `JSON.parse` on a whole input string: parses one JSON value and
requires only trailing whitespace after it; none models a thrown
SyntaxError. -/
def jsonParse (s : String) : Option JSValue :=
  match parseValue (s.length + 1) s.data with
  | some (v, rest) => if skipWs rest = [] then some v else none
  | none => none

/-- A thrown JavaScript exception relevant to the embedded operations: the
storage write failure that `localStorage.setItem` can raise (quota exceeded
or storage disabled). -/
inductive JSError where
  | storageWriteError : JSError
deriving DecidableEq, Repr

/-- The session-relevant process state: the React states `usuario` and
`carregando` of AuthProvider, the localStorage slot keyed "usuario"
(none = absent), and whether the platform's storage write currently fails
(models the environment, read-only for the embedded code). -/
structure AppState where
  usuario : JSValue
  carregando : Bool
  slot : Option String
  storageWriteFails : Bool

/-- The process-start state of AuthProvider: `useState(null)` for usuario
and `useState(true)` for carregando, over a given pre-existing slot content
and storage environment. -/
def initState (slot0 : Option String) (wf : Bool) : AppState :=
  { usuario := JSValue.null, carregando := true, slot := slot0,
    storageWriteFails := wf }

/-- The restore-on-mount effect of AuthProvider (AuthContext.jsx lines
114-132): reads the slot; if the stored string is truthy it tries
JSON.parse, on success sets usuario to the parsed value, on SyntaxError
(caught) logs and removes the slot; finally sets carregando to false.
Total because the only throwing operation, JSON.parse, is inside
try/catch in the source. -/
def restore (st : AppState) : AppState :=
  let st1 :=
    match st.slot with
    | none => st
    | some s =>
      if s == "" then st
      else
        match jsonParse s with
        | some v => { st with usuario := v }
        | none => { st with slot := none }
  { st1 with carregando := false }

/-- The `login` function of AuthProvider (AuthContext.jsx lines 155-161):
`setUsuario(dadosUsuario)` then `localStorage.setItem('usuario',
JSON.stringify(dadosUsuario))`. The React state update takes effect even
when the subsequent storage write throws; the write is not wrapped in
try/catch, so a storage failure propagates to the caller (returned as the
second component). -/
def login (st : AppState) (dadosUsuario : JSValue) : AppState × Option JSError :=
  let st1 := { st with usuario := dadosUsuario }
  if st.storageWriteFails then
    (st1, some JSError.storageWriteError)
  else
    ({ st1 with slot := some (stringifyVal dadosUsuario) }, none)

/-- The `logout` function of AuthProvider (AuthContext.jsx lines 185-191):
`setUsuario(null)` then `localStorage.removeItem('usuario')`; removeItem
never throws. -/
def logout (st : AppState) : AppState :=
  { st with usuario := JSValue.null, slot := none }

/-- The `ehProfessor` helper of AuthProvider:
`usuario?.tipoUsuario === 'PROFESSOR'`. -/
def ehProfessorOf (usuario : JSValue) : Bool :=
  match getField usuario "tipoUsuario" with
  | some (JSValue.str t) => t == "PROFESSOR"
  | _ => false

/-- The `ehAcademico` helper of AuthProvider:
`usuario?.tipoUsuario === 'ACADEMICO'`. -/
def ehAcademicoOf (usuario : JSValue) : Bool :=
  match getField usuario "tipoUsuario" with
  | some (JSValue.str t) => t == "ACADEMICO"
  | _ => false

/-- The events that mutate session state during the process lifetime:
the single startup restore effect, `login` and `logout`. -/
inductive SessionEvent where
  | restoreEv : SessionEvent
  | loginEv : JSValue → SessionEvent
  | logoutEv : SessionEvent

/-- One step of the session state machine. -/
def sessionStep (st : AppState) (e : SessionEvent) : AppState :=
  match e with
  | .restoreEv => restore st
  | .loginEv d => (login st d).1
  | .logoutEv => logout st

/-- The decision produced by one evaluation of a route guard. -/
inductive GuardDecision where
  | showLoading : GuardDecision
  | redirectTo : String → Bool → GuardDecision
  | render : GuardDecision
deriving DecidableEq, Repr

/-- The `RotaProtegida` component (RotasApp.jsx lines 71-132), the
Navigation Guard applied to every guarded route: while `carregando` it
renders the loading placeholder; else if `!usuario` it returns
`<Navigate to="/selecionar-tipo" replace />`; else it renders the
requested children. -/
def rotaProtegida (carregando : Bool) (usuario : JSValue) : GuardDecision :=
  if carregando then GuardDecision.showLoading
  else if !(truthy usuario) then GuardDecision.redirectTo "/selecionar-tipo" true
  else GuardDecision.render

/-- A route evaluation in the route table (RotasApp.jsx `RotasApp`): only
the guarded parent route wraps its element in `RotaProtegida`; public
routes render directly. -/
def guardDecision (carregando : Bool) (usuario : JSValue) (requiredAuth : Bool) :
    GuardDecision :=
  if requiredAuth then rotaProtegida carregando usuario
  else GuardDecision.render

/-- The documented well-formed Identity shape (AuthContext.jsx lines 70-78):
id, email, nome, tipoUsuario, and the optional role-specific attributes. -/
structure Usuario where
  id : Int
  email : String
  nome : String
  tipoUsuario : String
  departamento : Option String
  matricula : Option String

/-- The JS object a well-formed Usuario appears as at runtime. -/
def Usuario.toJS (u : Usuario) : JSValue :=
  JSValue.obj
    ([("id", JSValue.num u.id), ("email", JSValue.str u.email),
      ("nome", JSValue.str u.nome), ("tipoUsuario", JSValue.str u.tipoUsuario)]
      ++ (match u.departamento with
          | some d => [("departamento", JSValue.str d)]
          | none => [])
      ++ (match u.matricula with
          | some m => [("matricula", JSValue.str m)]
          | none => []))

/-- The nullable identity held by Session State, as the JS value the guard
observes: null when no user is logged in. -/
def usuarioJS : Option Usuario → JSValue
  | none => JSValue.null
  | some u => u.toJS

/-- A navigation effect issued by a page controller: `navigate(path)`
(push) or a history-replacing navigation. -/
inductive NavAction where
  | push : String → NavAction
  | replaceNav : String → NavAction
deriving DecidableEq, Repr

/-- What the FormularioTurma page renders for one evaluation. -/
inductive FormRender where
  | nothing : FormRender
  | formUI : Bool → FormRender
deriving DecidableEq, Repr

/-- The outcome of one evaluation of the FormularioTurma component: what it
renders, the navigation its role-guard effect issues, and whether the
explanatory alert is shown. -/
structure FormResult where
  render : FormRender
  nav : Option NavAction
  alerted : Bool
deriving DecidableEq, Repr

/-- The role gate of `FormularioTurma` (FormularioTurma.jsx): the effect at
lines 156-164 runs `if (!usuario || !ehProfessor())` then alerts and
`navigate('/')`, and the render guard at lines 348-350 returns null under
the same condition; otherwise the form UI for the current mode is
rendered. -/
def formularioTurma (usuario : JSValue) (modoEdicao : Bool) : FormResult :=
  if !(truthy usuario) || !(ehProfessorOf usuario) then
    { render := FormRender.nothing, nav := some (NavAction.push "/"),
      alerted := true }
  else
    { render := FormRender.formUI modoEdicao, nav := none, alerted := false }

/-- A course section as documented for the list page (ListaTurmas card
shape: id, nome, descricao, nomeProfessor, quantidadeAlunos, inscrito). -/
structure Turma where
  id : Int
  nome : String
  descricao : String
  nomeProfessor : String
  quantidadeAlunos : Nat
  inscrito : Bool
deriving DecidableEq, Repr

/-- The local UI state of the ListaTurmas page: the list contents, the
loading flag, the error message (none = no error) and the search term. -/
structure ListState where
  turmas : List Turma
  loading : Bool
  erro : Option String
  termoBusca : String
deriving DecidableEq, Repr

/-- The outcome of the awaited list/search HTTP request. -/
inductive FetchResult where
  | ok : List Turma → FetchResult
  | fail : FetchResult

/-- The error message shown when loading/searching the list fails. -/
def msgFalhaCarregar : String := "Falha ao carregar turmas. Tente novamente."

/-- The inline message shown on a 401 login response. -/
def msgCredenciais : String := "Email, senha ou tipo de usuário incorretos"

/-- The generic message shown on any other login failure. -/
def msgServidor : String := "Erro ao conectar com o servidor"

/-- The `carregarTurmas` function of ListaTurmas (load or search): sets
loading and clears the previous error, awaits the request, on success
replaces the list with the response data, on any failure sets the error
message and leaves `turmas` untouched; finally clears loading. -/
def carregarTurmas (st : ListState) (resp : FetchResult) : ListState :=
  let st1 := { st with loading := true, erro := none }
  match resp with
  | FetchResult.ok ds => { st1 with turmas := ds, loading := false }
  | FetchResult.fail =>
      { st1 with erro := some msgFalhaCarregar, loading := false }

/-- The local state of the Login page relevant to submission: the inline
error message and the loading flag. -/
structure LoginPageState where
  erro : String
  carregando : Bool
deriving DecidableEq, Repr

/-- The outcome of the awaited `POST /api/auth/login` request. -/
inductive LoginResponse where
  | success : JSValue → LoginResponse
  | httpError : Nat → LoginResponse
  | networkError : LoginResponse

/-- The `handleSubmit` function of the Login page: clears the error, sets
loading, awaits the request; on success calls the session store's `login`
with the response data and navigates to "/" (if the storage write inside
`login` throws, the catch sees an error without a `response` and shows the
generic message, with no navigation); on a 401 it shows the inline
credentials message; on any other failure the generic message; finally it
clears loading. Returns the session state, the page state and the
navigation performed. -/
def handleSubmit (app : AppState) (ps : LoginPageState) (resp : LoginResponse) :
    AppState × LoginPageState × Option NavAction :=
  let ps1 := { ps with erro := "", carregando := true }
  match resp with
  | LoginResponse.success d =>
    match login app d with
    | (app1, none) => (app1, { ps1 with carregando := false }, some (NavAction.push "/"))
    | (app1, some _) =>
        (app1, { ps1 with erro := msgServidor, carregando := false }, none)
  | LoginResponse.httpError status =>
    if status == 401 then
      (app, { ps1 with erro := msgCredenciais, carregando := false }, none)
    else
      (app, { ps1 with erro := msgServidor, carregando := false }, none)
  | LoginResponse.networkError =>
      (app, { ps1 with erro := msgServidor, carregando := false }, none)

/-- The two-character string consisting of an opening and a closing brace:
the JSON text of an empty object. -/
def emptyObjBlob : String := String.mk [lbraceCh, rbraceCh]

/-- A sample well-formed teacher identity. -/
def sampleTeacher : Usuario :=
  { id := 1, email := "ana@ex.com", nome := "Ana", tipoUsuario := "PROFESSOR",
    departamento := some "CC", matricula := none }

/-- A sample well-formed student identity. -/
def sampleStudent : Usuario :=
  { id := 2, email := "beto@ex.com", nome := "Beto", tipoUsuario := "ACADEMICO",
    departamento := none, matricula := some "2023001" }

/-- A well-formed Usuario appears as a JS object, which is always truthy. -/
theorem truthy_toJS (u : Usuario) : truthy u.toJS = true := rfl

/-- C1: On a guarded route, the Navigation Guard (`RotaProtegida`) returns
SHOW_LOADING whenever the restoring flag is true, independent of the
identity; with restoring false it redirects to the type-selection screen
with a replacing navigation exactly when the identity is null, and renders
the requested page in every remaining case; and the decision depends only
on (restoring, identity-present). -/
theorem guard_three_way_decision (carregando : Bool) (u : Option Usuario) :
    (carregando = true →
      rotaProtegida carregando (usuarioJS u) = GuardDecision.showLoading) ∧
    (carregando = false → u = none →
      rotaProtegida carregando (usuarioJS u) =
        GuardDecision.redirectTo "/selecionar-tipo" true) ∧
    (carregando = false → u ≠ none →
      rotaProtegida carregando (usuarioJS u) = GuardDecision.render) ∧
    (∀ (u' : Option Usuario), u.isSome = u'.isSome →
      rotaProtegida carregando (usuarioJS u) =
        rotaProtegida carregando (usuarioJS u')) := by
  refine ⟨?_, ?_, ?_, ?_⟩
  · intro hc; simp [rotaProtegida, hc]
  · intro hc hu; subst hu; simp [rotaProtegida, hc, usuarioJS, truthy]
  · intro hc hu
    match u, hu with
    | some x, _ => simp [rotaProtegida, hc, usuarioJS, truthy_toJS]
  · intro u' hsome
    match u, u', hsome with
    | none, none, _ => rfl
    | some x, some y, _ =>
        simp [rotaProtegida, usuarioJS, truthy_toJS]

/-- Witness for C1 at concrete inputs. -/
theorem guard_three_way_decision_witness :
    rotaProtegida true (usuarioJS none) = GuardDecision.showLoading ∧
    rotaProtegida false (usuarioJS none) =
      GuardDecision.redirectTo "/selecionar-tipo" true ∧
    rotaProtegida false (usuarioJS (some sampleTeacher)) = GuardDecision.render :=
  ⟨(guard_three_way_decision true none).1 rfl,
   (guard_three_way_decision false none).2.1 rfl rfl,
   (guard_three_way_decision false (some sampleTeacher)).2.2.1 rfl (by simp)⟩

/-- C2 counterexample: the empty string is a malformed persisted value
(JSON.parse throws on it), yet restore leaves the slot in place because the
source gates the parse-and-heal branch on string truthiness
(`if (usuarioSalvo)`), and the empty string is falsy. The identity does
end up null and nothing is thrown. -/
theorem restore_empty_string_slot_kept :
    jsonParse "" = none ∧
    (restore (initState (some "") false)).usuario = JSValue.null ∧
    (restore (initState (some "") false)).slot = some "" ∧
    (restore (initState (some "") false)).slot ≠ none :=
  ⟨rfl, rfl, rfl, by simp [restore, initState]⟩

/-- C2 amended: for every malformed (unparseable) NON-EMPTY value written
into the persisted slot, restore() results in identity null, the slot
removed, restoring cleared, and no exception (the parse failure is caught
locally); the empty string is the one malformed value whose slot survives,
with identity still null. -/
theorem restore_malformed_nonempty (wf : Bool) (s : String)
    (hmal : jsonParse s = none) (hne : s ≠ "") :
    restore (initState (some s) wf) =
      { usuario := JSValue.null, carregando := false, slot := none,
        storageWriteFails := wf } := by
  simp [restore, initState, hmal, hne]

/-- Witness for the amended C2 at the concrete malformed value "x". -/
theorem restore_malformed_nonempty_witness :
    restore (initState (some "x") false) =
      { usuario := JSValue.null, carregando := false, slot := none,
        storageWriteFails := false } :=
  restore_malformed_nonempty false "x" rfl (by decide)

/-- C3: the restoring flag starts true at process start, every execution of
restore() ends with it false regardless of slot contents, and no session
event (restore, login, logout) ever takes it from false back to true. -/
theorem restoring_flag_lifecycle :
    (∀ (slot0 : Option String) (wf : Bool), (initState slot0 wf).carregando = true) ∧
    (∀ (st : AppState), (restore st).carregando = false) ∧
    (∀ (st : AppState) (e : SessionEvent),
      st.carregando = false → (sessionStep st e).carregando = false) := by
  refine ⟨fun _ _ => rfl, fun _ => rfl, ?_⟩
  intro st e h
  cases e with
  | restoreEv => rfl
  | loginEv d =>
      simp only [sessionStep, login]
      by_cases hw : st.storageWriteFails <;> simp [hw, h]
  | logoutEv => simpa [sessionStep, logout] using h

/-- Witness for C3 at a concrete state and event. -/
theorem restoring_flag_lifecycle_witness :
    (sessionStep (restore (initState none false)) SessionEvent.logoutEv).carregando
      = false :=
  restoring_flag_lifecycle.2.2 (restore (initState none false))
    SessionEvent.logoutEv rfl

/-- C4: for every evaluation of the create/edit page whose identity is null
or whose role is not PROFESSOR, the page controller renders nothing (no
restricted form UI) and navigates away to the root path; and the role
restriction is enforced by the page, not the Navigation Guard: for a
present (truthy) non-teacher identity the guard itself still decides
RENDER. -/
theorem form_role_gate (u : JSValue) (modoEdicao : Bool)
    (h : ehProfessorOf u = false) :
    (formularioTurma u modoEdicao).render = FormRender.nothing ∧
    (formularioTurma u modoEdicao).nav = some (NavAction.push "/") ∧
    (truthy u = true → rotaProtegida false u = GuardDecision.render) := by
  refine ⟨?_, ?_, ?_⟩
  · simp [formularioTurma, h]
  · simp [formularioTurma, h]
  · intro ht; simp [rotaProtegida, ht]

/-- Witness for C4 at a concrete logged-in student identity. -/
theorem form_role_gate_witness :
    (formularioTurma sampleStudent.toJS false).render = FormRender.nothing ∧
    (formularioTurma sampleStudent.toJS false).nav = some (NavAction.push "/") ∧
    rotaProtegida false sampleStudent.toJS = GuardDecision.render := by
  obtain ⟨h1, h2, h3⟩ := form_role_gate sampleStudent.toJS false rfl
  exact ⟨h1, h2, h3 rfl⟩

/-- C5 counterexample: when the persistence write fails, `login` throws to
its caller (the error is surfaced, not caught or logged inside login),
refuting "login does not throw on a persistence-write failure". -/
theorem login_throws_on_write_failure :
    (login (initState none true) sampleTeacher.toJS).2 ≠ none := by
  simp [login, initState]

/-- C5 amended: login(identity) always sets the in-memory identity; when
the persistence write succeeds it writes the serialized identity to the
slot and cannot fail; but a persistence-write failure is NOT caught or
logged inside login — the exception propagates to the caller, with the
in-memory identity already set and the slot unchanged. -/
theorem login_sets_identity_and_writes (st : AppState) (d : JSValue) :
    ((login st d).1.usuario = d) ∧
    (st.storageWriteFails = false →
      (login st d).2 = none ∧ (login st d).1.slot = some (stringifyVal d)) ∧
    (st.storageWriteFails = true →
      (login st d).2 = some JSError.storageWriteError ∧
      (login st d).1.slot = st.slot) := by
  unfold login
  by_cases hw : st.storageWriteFails <;> simp [hw]

/-- Witness for the amended C5 at a concrete state with working storage. -/
theorem login_sets_identity_and_writes_witness :
    (login (initState none false) sampleTeacher.toJS).1.usuario
      = sampleTeacher.toJS ∧
    (login (initState none false) sampleTeacher.toJS).2 = none :=
  ⟨(login_sets_identity_and_writes (initState none false) sampleTeacher.toJS).1,
   ((login_sets_identity_and_writes (initState none false)
      sampleTeacher.toJS).2.1 rfl).1⟩

/-- C6: a 401 response to a login submission produces exactly the inline
credentials message with loading cleared, no navigation, and a completely
untouched session state (identity not set, the store's login never runs,
the slot not written). -/
theorem login_401_session_untouched (app : AppState) (ps : LoginPageState) :
    handleSubmit app ps (LoginResponse.httpError 401) =
      (app, { erro := msgCredenciais, carregando := false }, none) := rfl

/-- C7: for every identity I and every starting state, login(I) followed by
logout() ends with the in-memory identity null and the persisted slot
absent. -/
theorem login_then_logout_clears (st : AppState) (d : JSValue) :
    (logout (login st d).1).usuario = JSValue.null ∧
    (logout (login st d).1).slot = none :=
  ⟨rfl, rfl⟩

/-- C8: the role predicates are never both true for any current identity
value, and are both false on the null identity. -/
theorem role_predicates_exclusive (v : JSValue) :
    (ehProfessorOf v && ehAcademicoOf v) = false ∧
    ehProfessorOf JSValue.null = false ∧
    ehAcademicoOf JSValue.null = false := by
  refine ⟨?_, rfl, rfl⟩
  unfold ehProfessorOf ehAcademicoOf
  cases hf : getField v "tipoUsuario" with
  | none => rfl
  | some w =>
    cases w with
    | str t =>
        by_cases ht : t = "PROFESSOR" <;> simp [ht]
    | null => rfl
    | bool b => rfl
    | num n => rfl
    | arr xs => rfl
    | obj fs => rfl

/-- C9: a failed list load or search sets the user-visible error message
and leaves the list contents untouched (no overwrite with empty or partial
data), with loading cleared. -/
theorem list_failure_preserves_contents (st : ListState) :
    (carregarTurmas st FetchResult.fail).turmas = st.turmas ∧
    (carregarTurmas st FetchResult.fail).erro = some msgFalhaCarregar ∧
    (carregarTurmas st FetchResult.fail).loading = false :=
  ⟨rfl, rfl, rfl⟩

/-- C10: restore() performs no shape validation — every value the slot
holds that parses as JSON is accepted as the identity with the slot left in
place — and in particular the empty-object blob yields a non-null identity,
the Navigation Guard then decides RENDER for the guarded route, while both
role predicates are false for that identity. -/
theorem restore_accepts_any_parsed_json :
    (∀ (wf : Bool) (s : String) (v : JSValue), s ≠ "" → jsonParse s = some v →
      (restore (initState (some s) wf)).usuario = v ∧
      (restore (initState (some s) wf)).slot = some s) ∧
    jsonParse emptyObjBlob = some (JSValue.obj []) ∧
    (restore (initState (some emptyObjBlob) false)).usuario = JSValue.obj [] ∧
    (restore (initState (some emptyObjBlob) false)).usuario ≠ JSValue.null ∧
    (restore (initState (some emptyObjBlob) false)).slot = some emptyObjBlob ∧
    rotaProtegida (restore (initState (some emptyObjBlob) false)).carregando
      (restore (initState (some emptyObjBlob) false)).usuario
      = GuardDecision.render ∧
    ehProfessorOf (restore (initState (some emptyObjBlob) false)).usuario
      = false ∧
    ehAcademicoOf (restore (initState (some emptyObjBlob) false)).usuario
      = false := by
  refine ⟨?_, rfl, rfl, fun h => JSValue.noConfusion h, rfl, rfl, rfl, rfl⟩
  intro wf s v hne hok
  constructor <;> simp [restore, initState, hne, hok]

/-- Witness for C10's universal clause at the concrete empty-object blob. -/
theorem restore_accepts_any_parsed_json_witness :
    (restore (initState (some emptyObjBlob) true)).usuario = JSValue.obj [] ∧
    (restore (initState (some emptyObjBlob) true)).slot = some emptyObjBlob :=
  restore_accepts_any_parsed_json.1 true emptyObjBlob (JSValue.obj [])
    (by decide) rfl
